import Mathlib

/-!
Verification of the UK VRM Lookup backend (`src/backend/main.py`).

The backend is a small HTTP service: it normalizes a vehicle registration
plate, calls the DVLA upstream API, and maps the upstream response to a
reduced `LookupResponse` or an error.  We embed the request-handling path
shallowly: Python strings become `String`, the upstream HTTP exchange
becomes an explicit `UpstreamResponse` value, JSON objects become
association lists, and exceptions become an error constructor.
-/

namespace VRM

/-- A JSON scalar value as stored in the upstream vehicle record. -/
inductive JVal where
  | str : String → JVal
  | num : Int → JVal
  | bool : Bool → JVal
  | null : JVal
deriving DecidableEq, Repr

/-- Python `dict.get(key)`: the value bound to `key`, or `none` when the key
is missing (keys in a JSON object are unique, so first-match lookup agrees
with dict lookup). -/
def dictGet : List (String × JVal) → String → Option JVal
  | [], _ => none
  | (k, v) :: rest, key => if k = key then some v else dictGet rest key

/-- A character removed by the regex `[\s-]` in `normalize_plate`:
whitespace or a hyphen.  `keepChar c` is true when `c` survives the
substitution. -/
def keepChar (c : Char) : Bool := !(c.isWhitespace || c == '-')

/-- `normalize_plate` (main.py line 106):
`re.sub(r"[\s-]", "", plate).upper()` — delete every whitespace/hyphen
character, then upper-case the remainder. -/
def normalize_plate (s : String) : String :=
  String.mk ((s.data.filter keepChar).map Char.toUpper)

/-- Python `str.strip()` as used in the lookup handler (main.py line 179):
remove leading and trailing whitespace. -/
def pyStrip (s : String) : String :=
  String.mk (((s.data.dropWhile Char.isWhitespace).reverse.dropWhile
      Char.isWhitespace).reverse)

/-- Python string slicing `s[:n]` (main.py line 143 uses `text[:200]`). -/
def pyTruncate (n : Nat) (s : String) : String :=
  String.mk (s.data.take n)

/-- The upstream (DVLA) HTTP response as seen by `call_dvla`: status code,
parsed JSON body (used only on status 200), raw body text. -/
structure UpstreamResponse where
  status : Nat
  json : List (String × JVal)
  text : String
deriving DecidableEq

/-- Request body of POST /lookup. -/
structure LookupRequest where
  plate : String
deriving DecidableEq

/-- Response body of POST /lookup: the five extracted fields, each optional
(`None` by default in the pydantic model). -/
structure LookupResponse where
  make : Option JVal
  model : Option JVal
  colour : Option JVal
  year_of_manufacture : Option JVal
  fuel_type : Option JVal
deriving DecidableEq

/-- Result of `call_dvla`: a vehicle record dict (status 200), `None`
(no key configured, or upstream 400/404), or a raised `HTTPException`
carrying a status and detail string. -/
inductive CallDvlaResult where
  | record : List (String × JVal) → CallDvlaResult
  | noRecord : CallDvlaResult
  | httpError : Nat → String → CallDvlaResult
deriving DecidableEq

/-- One invocation of `call_dvla`, together with whether a network request
was issued and, if so, the `registrationNumber` string sent in the payload. -/
structure CallOutcome where
  result : CallDvlaResult
  networkCalled : Bool
  payload : Option String
deriving DecidableEq

/-- `call_dvla` (main.py lines 109-143).  `apiKey` is the `DVLA_API_KEY`
configuration; `resp` is the response the upstream would return if called.
With no key the function returns `None` without any network call; otherwise
it posts `{"registrationNumber": normalize_plate(plate)}` and maps the
status: 200 → the JSON record, 400/404 → `None`, anything else → raised
`HTTPException(status, "DVLA error: " + text[:200])`. -/
def call_dvla (apiKey : Option String) (resp : UpstreamResponse)
    (plate : String) : CallOutcome :=
  match apiKey with
  | none => { result := .noRecord, networkCalled := false, payload := none }
  | some _ =>
    let pay : Option String := some (normalize_plate plate)
    if resp.status = 200 then
      { result := .record resp.json, networkCalled := true, payload := pay }
    else if resp.status = 400 ∨ resp.status = 404 then
      { result := .noRecord, networkCalled := true, payload := pay }
    else
      { result := .httpError resp.status
          ("DVLA error: " ++ pyTruncate 200 resp.text),
        networkCalled := true, payload := pay }

/-- Externally visible outcome of POST /lookup: a 200 body, or an HTTP
error with status and detail (FastAPI renders a raised `HTTPException`). -/
inductive LookupOutcome where
  | ok : LookupResponse → LookupOutcome
  | err : Nat → String → LookupOutcome
deriving DecidableEq

/-- One full run of the lookup handler: the outcome plus whether an
upstream network call was made. -/
structure LookupRun where
  outcome : LookupOutcome
  networkCalled : Bool
deriving DecidableEq

/-- The POST /lookup handler `lookup` (main.py lines 163-195): strip the
plate; empty → 400 "plate required"; otherwise call `call_dvla` and either
extract the five fields from a truthy record, raise its `HTTPException`,
or raise 404 "Vehicle not found" (for `None` or an empty — falsy — dict). -/
def lookup (apiKey : Option String) (req : LookupRequest)
    (resp : UpstreamResponse) : LookupRun :=
  let plate := pyStrip req.plate
  if plate = "" then
    { outcome := .err 400 "plate required", networkCalled := false }
  else
    let c := call_dvla apiKey resp plate
    match c.result with
    | .httpError st d => { outcome := .err st d, networkCalled := c.networkCalled }
    | .noRecord =>
      { outcome := .err 404 "Vehicle not found", networkCalled := c.networkCalled }
    | .record v =>
      if v = [] then
        { outcome := .err 404 "Vehicle not found", networkCalled := c.networkCalled }
      else
        { outcome := .ok
            { make := dictGet v "make",
              model := dictGet v "model",
              colour := dictGet v "colour",
              year_of_manufacture := dictGet v "yearOfManufacture",
              fuel_type := dictGet v "fuelType" },
          networkCalled := c.networkCalled }

/-- Response body of GET /. -/
structure RootResponse where
  service : String
  version : String
  docs : String
deriving DecidableEq

/-- Response body of GET /health. -/
structure HealthResponse where
  ok : Bool
deriving DecidableEq

/-- The GET / handler `root` (main.py lines 147-154). -/
def root : RootResponse :=
  { service := "UK VRM Lookup", version := "1.0.0", docs := "/docs" }

/-- The GET /health handler `health` (main.py lines 157-160). -/
def health : HealthResponse :=
  { ok := true }

/-- Modelled from the spec (section 4.1): "produce a normalized string by
removing every whitespace character and every hyphen, then upper-casing the
remainder", written as two explicit passes to compare with the source's
`normalize_plate`.  First pass: drop exactly the whitespace/hyphen
characters, keep everything else. -/
def removeWsHyphen : List Char → List Char
  | [] => []
  | c :: cs =>
    if c.isWhitespace || c == '-' then removeWsHyphen cs
    else c :: removeWsHyphen cs

/-- Modelled from the spec (section 4.1), second pass: upper-case every
remaining character. -/
def upperAll : List Char → List Char
  | [] => []
  | c :: cs => c.toUpper :: upperAll cs

/-- The spec's description of normalization as a function. -/
def normalizeSpec (s : String) : String :=
  String.mk (upperAll (removeWsHyphen s.data))

end VRM

namespace VRM

/-! ### Character-level facts about normalization -/

theorem char_toNat_ofNat {m : Nat} (h : m.isValidChar) :
    (Char.ofNat m).toNat = m := by
  simp only [Char.ofNat, dif_pos h, Char.ofNatAux, Char.toNat, UInt32.toNat]
  rfl

theorem keepChar_of_toNat_big {c : Char} (h1 : 64 < c.toNat) :
    keepChar c = true := by
  have hs : c ≠ ' ' := fun e => by rw [e] at h1; exact absurd h1 (by decide)
  have ht : c ≠ '\t' := fun e => by rw [e] at h1; exact absurd h1 (by decide)
  have hr : c ≠ '\r' := fun e => by rw [e] at h1; exact absurd h1 (by decide)
  have hn : c ≠ '\n' := fun e => by rw [e] at h1; exact absurd h1 (by decide)
  have hh : c ≠ '-' := fun e => by rw [e] at h1; exact absurd h1 (by decide)
  simp [keepChar, Char.isWhitespace, hs, ht, hr, hn, hh]

theorem keepChar_toUpper (c : Char) : keepChar c.toUpper = keepChar c := by
  unfold Char.toUpper
  by_cases h : c.toNat ≥ 97 ∧ c.toNat ≤ 122
  · simp only [if_pos h]
    have ht : (Char.ofNat (c.toNat - 32)).toNat = c.toNat - 32 :=
      char_toNat_ofNat (Or.inl (by omega))
    rw [keepChar_of_toNat_big (by omega),
      keepChar_of_toNat_big (by omega : 64 < c.toNat)]
  · simp only [if_neg h]

theorem toUpper_toUpper (c : Char) : c.toUpper.toUpper = c.toUpper := by
  unfold Char.toUpper
  by_cases h : c.toNat ≥ 97 ∧ c.toNat ≤ 122
  · have hv : (c.toNat - 32).isValidChar := Or.inl (by omega)
    have ht : (Char.ofNat (c.toNat - 32)).toNat = c.toNat - 32 :=
      char_toNat_ofNat hv
    simp only [if_pos h, ht]
    rw [if_neg (by omega)]
  · simp only [if_neg h]

/-! ### List-level facts about normalization and stripping -/

theorem filter_keep_dropWhile (l : List Char) :
    (l.dropWhile Char.isWhitespace).filter keepChar = l.filter keepChar := by
  induction l with
  | nil => rfl
  | cons c cs ih =>
    by_cases hw : c.isWhitespace
    · have hk : keepChar c = false := by simp [keepChar, hw]
      simp [List.dropWhile_cons, hw, List.filter_cons, hk, ih]
    · simp [List.dropWhile_cons, hw]

theorem filter_keep_pyStrip (s : String) :
    (pyStrip s).data.filter keepChar = s.data.filter keepChar := by
  show ((((s.data.dropWhile Char.isWhitespace).reverse.dropWhile
      Char.isWhitespace).reverse).filter keepChar) = _
  rw [List.filter_reverse, filter_keep_dropWhile, List.filter_reverse,
    List.reverse_reverse, filter_keep_dropWhile]

theorem normalize_plate_pyStrip_eq (s : String) :
    normalize_plate (pyStrip s) = normalize_plate s := by
  unfold normalize_plate
  rw [filter_keep_pyStrip]

theorem normalize_plate_idem (s : String) :
    normalize_plate (normalize_plate s) = normalize_plate s := by
  unfold normalize_plate
  show String.mk ((((s.data.filter keepChar).map Char.toUpper).filter
      keepChar).map Char.toUpper) = _
  have h1 : keepChar ∘ Char.toUpper = keepChar := funext keepChar_toUpper
  have h2 : Char.toUpper ∘ Char.toUpper = Char.toUpper := funext toUpper_toUpper
  rw [List.filter_map, h1, List.map_map, h2]
  simp [List.filter_filter]

end VRM

namespace VRM

/-- C6: `normalize_plate` removes exactly the whitespace and hyphen
characters and upper-cases the remainder (it agrees with the spec's
two-pass description on every input), it is total by construction, and
`normalize_plate "ab 12-cde" = "AB12CDE"`, `normalize_plate "A-B 1-2" = "AB12"`. -/
theorem normalize_plate_matches_spec :
    (∀ s : String, normalize_plate s = normalizeSpec s) ∧
    normalize_plate "ab 12-cde" = "AB12CDE" ∧
    normalize_plate "A-B 1-2" = "AB12" := by
  refine ⟨fun s => ?_, by decide, by decide⟩
  have hr : ∀ l : List Char, removeWsHyphen l = l.filter keepChar := by
    intro l
    induction l with
    | nil => rfl
    | cons c cs ih =>
      by_cases h : (c.isWhitespace || c == '-') = true
      · have hk : keepChar c = false := by simp [keepChar, h]
        simp [removeWsHyphen, h, List.filter_cons, hk, ih]
      · have hk : keepChar c = true := by simp [keepChar]; simpa using h
        simp [removeWsHyphen, h, List.filter_cons, hk, ih]
  have hu : ∀ l : List Char, upperAll l = l.map Char.toUpper := by
    intro l
    induction l with
    | nil => rfl
    | cons c cs ih => simp [upperAll, ih]
  unfold normalize_plate normalizeSpec
  rw [hr, hu]

/-- C7: plate normalization is idempotent on every string, and in
particular `normalize_plate "AB12CDE" = normalize_plate "ab 12-cde" = "AB12CDE"`. -/
theorem normalize_plate_idempotent :
    (∀ s : String, normalize_plate (normalize_plate s) = normalize_plate s) ∧
    normalize_plate "AB12CDE" = "AB12CDE" ∧
    normalize_plate "ab 12-cde" = "AB12CDE" :=
  ⟨normalize_plate_idem, by decide, by decide⟩

/-- C9: trimming commutes away under normalization — for every string,
`normalize_plate (pyStrip p) = normalize_plate p`, so the handler's
trimming never changes the `registrationNumber` payload that `call_dvla`
sends upstream. -/
theorem normalize_plate_strip_invariant :
    ∀ (p k : String) (resp : UpstreamResponse),
      normalize_plate (pyStrip p) = normalize_plate p ∧
      (call_dvla (some k) resp (pyStrip p)).payload =
        some (normalize_plate p) := by
  intro p k resp
  refine ⟨normalize_plate_pyStrip_eq p, ?_⟩
  unfold call_dvla
  by_cases h1 : resp.status = 200
  · simp [h1, normalize_plate_pyStrip_eq]
  · by_cases h2 : resp.status = 400 ∨ resp.status = 404
    · simp [h1, h2, normalize_plate_pyStrip_eq]
    · simp [h1, h2, normalize_plate_pyStrip_eq]

/-- C10: `root` and `health` are constants: `root` always returns the
fixed metadata object and `health` always returns `{ok := true}`. -/
theorem root_and_health_fixed :
    root = { service := "UK VRM Lookup", version := "1.0.0", docs := "/docs" } ∧
    health = { ok := true } :=
  ⟨rfl, rfl⟩

end VRM

namespace VRM

/-- C2: when the plate is empty after trimming, `lookup` fails with a 400
"plate required" error and makes no upstream call, for any key
configuration and any would-be upstream response. -/
theorem lookup_rejects_empty_plate (apiKey : Option String)
    (req : LookupRequest) (resp : UpstreamResponse)
    (h : pyStrip req.plate = "") :
    lookup apiKey req resp =
      { outcome := .err 400 "plate required", networkCalled := false } := by
  unfold lookup
  simp [h]

/-- Closed instance of `lookup_rejects_empty_plate` at a whitespace-only
plate. -/
theorem lookup_rejects_empty_plate_witness :
    lookup (some "key") { plate := "   " } { status := 200, json := [], text := "" } =
      { outcome := .err 400 "plate required", networkCalled := false } :=
  lookup_rejects_empty_plate (some "key") _ _ (by decide)

/-- C1: with a key configured, a non-empty trimmed plate, and a 200
upstream response whose record is non-empty (truthy), `lookup` succeeds and
extracts the five fields by name via `dictGet`, each absent when its key is
missing from the record. -/
theorem lookup_success_on_200_record (k : String) (req : LookupRequest)
    (resp : UpstreamResponse) (hp : pyStrip req.plate ≠ "")
    (hs : resp.status = 200) (hb : resp.json ≠ []) :
    lookup (some k) req resp =
      { outcome := .ok
          { make := dictGet resp.json "make",
            model := dictGet resp.json "model",
            colour := dictGet resp.json "colour",
            year_of_manufacture := dictGet resp.json "yearOfManufacture",
            fuel_type := dictGet resp.json "fuelType" },
        networkCalled := true } := by
  unfold lookup call_dvla
  simp [hp, hs, hb]

/-- Closed instance of `lookup_success_on_200_record`: the normal success
path, with `model` and `fuelType` missing from the record and therefore
absent in the response. -/
theorem lookup_success_on_200_record_witness :
    lookup (some "key") { plate := " ab12 cde " }
      { status := 200,
        json := [("make", JVal.str "FORD"), ("colour", JVal.str "BLUE"),
          ("yearOfManufacture", JVal.num 2015)],
        text := "" } =
      { outcome := LookupOutcome.ok
          { make := some (JVal.str "FORD"), model := none,
            colour := some (JVal.str "BLUE"),
            year_of_manufacture := some (JVal.num 2015), fuel_type := none },
        networkCalled := true } := by
  rw [lookup_success_on_200_record "key" _ _ (by decide) rfl (by decide)]
  decide

/-- A 400/404 upstream response drives a configured-key lookup to the 404
"Vehicle not found" outcome (helper shared by several claims). -/
theorem lookup_upstream_404_aux (k : String) (req : LookupRequest)
    (resp : UpstreamResponse) (hp : pyStrip req.plate ≠ "")
    (hs : resp.status = 400 ∨ resp.status = 404) :
    lookup (some k) req resp =
      { outcome := .err 404 "Vehicle not found", networkCalled := true } := by
  have h200 : resp.status ≠ 200 := by rcases hs with h | h <;> omega
  unfold lookup call_dvla
  simp [hp, h200, hs]

/-- With no key configured, a non-empty-plate lookup reaches the 404
"Vehicle not found" outcome with no network call (helper shared by several
claims). -/
theorem lookup_no_key_aux (req : LookupRequest) (resp : UpstreamResponse)
    (hp : pyStrip req.plate ≠ "") :
    lookup none req resp =
      { outcome := .err 404 "Vehicle not found", networkCalled := false } := by
  unfold lookup
  simp [hp, call_dvla]

/-- C3: with a key configured and a non-empty trimmed plate, an upstream
400 or 404 makes `call_dvla` report no record (not an error) and `lookup`
fail with 404 "Vehicle not found". -/
theorem lookup_not_found_on_400_404 (k : String) (req : LookupRequest)
    (resp : UpstreamResponse) (hp : pyStrip req.plate ≠ "")
    (hs : resp.status = 400 ∨ resp.status = 404) :
    (call_dvla (some k) resp (pyStrip req.plate)).result =
      CallDvlaResult.noRecord ∧
    lookup (some k) req resp =
      { outcome := .err 404 "Vehicle not found", networkCalled := true } := by
  have h200 : resp.status ≠ 200 := by rcases hs with h | h <;> omega
  constructor
  · unfold call_dvla
    simp [h200, hs]
  · exact lookup_upstream_404_aux k req resp hp hs

/-- Closed instance of `lookup_not_found_on_400_404` at upstream status 404. -/
theorem lookup_not_found_on_400_404_witness :
    lookup (some "key") { plate := "AB12CDE" }
      { status := 404, json := [], text := "not found" } =
      { outcome := LookupOutcome.err 404 "Vehicle not found",
        networkCalled := true } :=
  (lookup_not_found_on_400_404 "key" _ _ (by decide) (Or.inr rfl)).2

/-- C4: with a key configured and a non-empty trimmed plate, any upstream
status other than 200/400/404 is propagated: `lookup` fails with exactly
the upstream status and a detail containing the upstream body truncated to
at most 200 characters. -/
theorem lookup_propagates_upstream_failure (k : String) (req : LookupRequest)
    (resp : UpstreamResponse) (hp : pyStrip req.plate ≠ "")
    (h200 : resp.status ≠ 200) (h400 : resp.status ≠ 400)
    (h404 : resp.status ≠ 404) :
    lookup (some k) req resp =
      { outcome := .err resp.status
          ("DVLA error: " ++ pyTruncate 200 resp.text),
        networkCalled := true } ∧
    (pyTruncate 200 resp.text).length ≤ 200 := by
  constructor
  · unfold lookup call_dvla
    have hor : ¬(resp.status = 400 ∨ resp.status = 404) := by
      rintro (h | h) <;> [exact h400 h; exact h404 h]
    simp [hp, h200, hor]
  · show (resp.text.data.take 200).length ≤ 200
    rw [List.length_take]
    exact Nat.min_le_left _ _

/-- Closed instance of `lookup_propagates_upstream_failure` at upstream
status 500. -/
theorem lookup_propagates_upstream_failure_witness :
    lookup (some "key") { plate := "AB12CDE" }
      { status := 500, json := [], text := "boom" } =
      { outcome := LookupOutcome.err 500 "DVLA error: boom",
        networkCalled := true } := by
  rw [(lookup_propagates_upstream_failure "key" _ _ (by decide)
    (by decide) (by decide) (by decide)).1]
  decide

/-- C5: with no key configured and a non-empty trimmed plate, `call_dvla`
short-circuits to no record without a network call, `lookup` fails with
404 "Vehicle not found" and no network call, and the outcome equals the
outcome of a configured-key lookup whose upstream answered 404. -/
theorem lookup_no_key_collapses_to_not_found (req : LookupRequest)
    (resp : UpstreamResponse) (hp : pyStrip req.plate ≠ "") :
    call_dvla none resp (pyStrip req.plate) =
      { result := .noRecord, networkCalled := false, payload := none } ∧
    lookup none req resp =
      { outcome := .err 404 "Vehicle not found", networkCalled := false } ∧
    ∀ (k : String) (resp2 : UpstreamResponse), resp2.status = 404 →
      (lookup none req resp).outcome = (lookup (some k) req resp2).outcome := by
  refine ⟨rfl, lookup_no_key_aux req resp hp, ?_⟩
  intro k resp2 h404
  rw [lookup_no_key_aux req resp hp,
    lookup_upstream_404_aux k req resp2 hp (Or.inr h404)]

/-- Closed instance of `lookup_no_key_collapses_to_not_found`. -/
theorem lookup_no_key_collapses_to_not_found_witness :
    lookup none { plate := "AB12CDE" }
      { status := 200, json := [("make", JVal.str "FORD")], text := "" } =
      { outcome := LookupOutcome.err 404 "Vehicle not found",
        networkCalled := false } :=
  (lookup_no_key_collapses_to_not_found _ _ (by decide)).2.1

/-- C8: with a key configured and a non-empty trimmed plate, a 200 upstream
response carrying an empty JSON object is falsy in the handler's truthiness
test, so `lookup` does not return the all-absent success response but fails
with 404 "Vehicle not found". -/
theorem lookup_empty_record_not_found (k : String) (req : LookupRequest)
    (resp : UpstreamResponse) (hp : pyStrip req.plate ≠ "")
    (hs : resp.status = 200) (hb : resp.json = []) :
    lookup (some k) req resp =
      { outcome := .err 404 "Vehicle not found", networkCalled := true } ∧
    (lookup (some k) req resp).outcome ≠
      LookupOutcome.ok
        { make := none, model := none, colour := none,
          year_of_manufacture := none, fuel_type := none } := by
  have h : lookup (some k) req resp =
      { outcome := .err 404 "Vehicle not found", networkCalled := true } := by
    unfold lookup call_dvla
    simp [hp, hs, hb]
  exact ⟨h, by rw [h]; simp⟩

/-- Closed instance of `lookup_empty_record_not_found`: upstream 200 with
`{}` yields 404, not an empty success body. -/
theorem lookup_empty_record_not_found_witness :
    lookup (some "key") { plate := "AB12CDE" }
      { status := 200, json := [], text := "{}" } =
      { outcome := LookupOutcome.err 404 "Vehicle not found",
        networkCalled := true } :=
  (lookup_empty_record_not_found "key" _ _ (by decide) rfl rfl).1

end VRM
